import Mathlib

/-!
Verification of the app-generation-and-revision workflow of the `bya-react`
repository, shallowly embedded from `src/src/context/AppContext.jsx`.

Modelling conventions:
* JavaScript values that flow through the workflow (parsed JSON metadata,
  artifact fields supplied by the metadata call) are modelled by the `Json`
  inductive, which includes an `undefined` constructor for JavaScript's
  `undefined` (e.g. the result of reading a missing object property).
  JavaScript numbers are modelled by `Int`; no claim involves numeric
  arithmetic.
* The browser `localStorage` medium holds, in reality, a string under the
  single key `bya-saved-apps`.  We model its contents at the JSON-value
  level with `Stored`: `absent` (no entry, `getItem` returns `null`),
  `wellFormed j` (a string that `JSON.parse` decodes to the JSON value `j`),
  and `malformed` (a string on which `JSON.parse` throws a `SyntaxError`).
  `JSON.stringify` of a saved-apps list is modelled by `encodeArtifact`
  applied pointwise; `jsonify` models stringify's treatment of `undefined`
  (an object field whose value is `undefined` is dropped, an array element
  that is `undefined` becomes `null`).
* The two outbound OpenAI `responses.create` calls are an external boundary;
  each call's outcome is passed to the embedded function as an explicit
  argument: `Except String String` (thrown error message, or the
  `output_text` of the response).  For the metadata call the composition
  with `JSON.parse` is passed as `Except String (Option Json)`: `.error e`
  models the call throwing, `.ok none` models output text that is not valid
  JSON (the `JSON.parse` in the `try` at line 218 throws), `.ok (some j)`
  models output text parsing to the JSON value `j`.
* `Date.now()` is passed in as a `Nat` argument and
  `new Date().toISOString()` as a `String` argument.
* The OpenAI client object is opaque; the state only records whether it has
  been initialised (`aiClient : Bool`, `false` models the initial `null`).
* Each exported operation (`generateApp`, `updateAppWithFollowUp`,
  `saveCurrentApp`) is modelled as an atomic transformation of a `World`
  (React state aggregate plus storage), with its dispatches applied in
  program order through `appReducer`, including the `finally` dispatch of
  `SET_GENERATING false`.
-/

namespace Bya

/-- JavaScript values occurring in the workflow: JSON values plus
`undefined`.  Numbers are modelled by `Int`. -/
inductive Json where
  | null : Json
  | undefined : Json
  | bool (b : Bool) : Json
  | num (n : Int) : Json
  | str (s : String) : Json
  | arr (elems : List Json) : Json
  | obj (fields : List (String × Json)) : Json
  deriving Repr

/-- JavaScript property access `j[k]` for the cases the workflow exercises:
on an object it returns the named field or `undefined`; on any other
non-nullish value it returns `undefined`.  (Access on `null`/`undefined`
throws and is modelled separately by `propAccess`.) -/
def jsGet (j : Json) (k : String) : Json :=
  match j with
  | .obj fields => ((fields.find? (fun p => p.1 == k)).map Prod.snd).getD .undefined
  | _ => .undefined

/-- JavaScript property access as an effect: reading a property of `null`
or `undefined` throws a `TypeError` (whose `message` is what the `catch`
block sees); otherwise it yields `jsGet`. -/
def propAccess (j : Json) (k : String) : Except String Json :=
  match j with
  | .null => .error ("Cannot read properties of null (reading " ++ k ++ ")")
  | .undefined => .error ("Cannot read properties of undefined (reading " ++ k ++ ")")
  | _ => .ok (jsGet j k)

/-- JavaScript truthiness of a value, as used by `JSON.parse(...) || []`. -/
def truthy : Json → Bool
  | .null => false
  | .undefined => false
  | .bool b => b
  | .num n => n != 0
  | .str s => s != ""
  | .arr _ => true
  | .obj _ => true

mutual
/-- `JSON.stringify`'s value normalisation: `undefined` is not
representable (`none`); inside arrays it becomes `null`, and object fields
holding it are dropped. -/
def jsonify : Json → Option Json
  | .undefined => none
  | .null => some .null
  | .bool b => some (.bool b)
  | .num n => some (.num n)
  | .str s => some (.str s)
  | .arr elems => some (.arr (jsonifyList elems))
  | .obj fields => some (.obj (jsonifyFields fields))

def jsonifyList : List Json → List Json
  | [] => []
  | x :: xs => (jsonify x).getD .null :: jsonifyList xs

def jsonifyFields : List (String × Json) → List (String × Json)
  | [] => []
  | (k, v) :: fs =>
    match jsonify v with
    | none => jsonifyFields fs
    | some v2 => (k, v2) :: jsonifyFields fs
end

/-- An artifact record as assembled by `generateApp` (AppContext.jsx
lines 229–237): `id`, `createdAt`, `prompt` and `code` are always strings
in the source (`Date.now().toString()`, `toISOString()`, the prompt
argument, `output_text`); `name`, `description` and `type` come from
property reads on the parsed metadata value and so may be arbitrary
JavaScript values. -/
structure Artifact where
  id : String
  name : Json
  description : Json
  type : Json
  createdAt : String
  prompt : String
  code : String
  deriving Repr

/-- Partial artifact for the `UPDATE_APP` action's spread-merge
`{ ...app, ...updates }`; a `none` field is absent from `updates`. -/
structure ArtifactUpdates where
  id : Option String := none
  name : Option Json := none
  description : Option Json := none
  type : Option Json := none
  createdAt : Option String := none
  prompt : Option String := none
  code : Option String := none
  deriving Repr

/-- The spread-merge `{ ...app, ...updates }`. -/
def applyUpdates (app : Artifact) (u : ArtifactUpdates) : Artifact :=
  { id := u.id.getD app.id
    name := u.name.getD app.name
    description := u.description.getD app.description
    type := u.type.getD app.type
    createdAt := u.createdAt.getD app.createdAt
    prompt := u.prompt.getD app.prompt
    code := u.code.getD app.code }

/-- `JSON.stringify` of one saved artifact: an object with the seven fields
in insertion order; a field whose value is `undefined` is dropped. -/
def encodeArtifact (a : Artifact) : Json :=
  Json.obj (jsonifyFields
    [("id", .str a.id), ("name", a.name), ("description", a.description),
     ("type", a.type), ("createdAt", .str a.createdAt),
     ("prompt", .str a.prompt), ("code", .str a.code)])

/-- Contents of the durable medium under the key `bya-saved-apps`:
no entry, a string decoding to the JSON value `j`, or a string on which
`JSON.parse` throws. -/
inductive Stored where
  | absent : Stored
  | wellFormed (j : Json) : Stored
  | malformed : Stored
  deriving Repr

/-- The load expression `JSON.parse(localStorage.getItem('bya-saved-apps')) || []`
at AppContext.jsx line 80.  With no entry, `getItem` returns `null`,
`JSON.parse` coerces it to the string `"null"` and returns `null`, and
`null || []` yields `[]`.  A well-formed entry decodes to its JSON value,
replaced by `[]` when falsy.  On a malformed entry `JSON.parse` throws a
`SyntaxError`; there is no surrounding try/catch, so the error escapes.
The result is dispatched as the new `savedApps` without any validation. -/
def loadSavedApps : Stored → Except String Json
  | .absent => .ok (Json.arr [])
  | .wellFormed j => .ok (if truthy j then j else Json.arr [])
  | .malformed => .error "Unexpected token in JSON"

/-- The in-memory React state aggregate (AppContext.jsx lines 5–11).
`generatedApps` is the insertion-ordered JavaScript `Map`; `aiClient`
records whether the OpenAI client has been initialised. -/
structure AppState where
  savedApps : List Artifact
  currentApp : Option Artifact
  isGenerating : Bool
  generatedApps : List (String × String)
  aiClient : Bool
  deriving Repr

def initialState : AppState :=
  { savedApps := [], currentApp := none, isGenerating := false,
    generatedApps := [], aiClient := false }

/-- `Map.get`. -/
def mapGet (m : List (String × String)) (k : String) : Option String :=
  (m.find? (fun p => p.1 == k)).map Prod.snd

/-- `Map.set`: update in place when the key exists (insertion order kept),
otherwise append. -/
def mapSet (m : List (String × String)) (k v : String) : List (String × String) :=
  if m.any (fun p => p.1 == k) then
    m.map (fun p => if p.1 == k then (k, v) else p)
  else
    m ++ [(k, v)]

/-- React state plus the durable medium, since three reducer cases write
`localStorage` as a side effect. -/
structure World where
  state : AppState
  storage : Stored
  deriving Repr

/-- The reducer's action type (AppContext.jsx lines 14–23).
`INIT_AI_CLIENT`'s payload is the opaque client object, modelled by the
mere fact of initialisation. -/
inductive Action where
  | SET_SAVED_APPS (payload : List Artifact)
  | ADD_APP (payload : Artifact)
  | SET_CURRENT_APP (payload : Option Artifact)
  | SET_GENERATING (payload : Bool)
  | SET_GENERATED_APP (id : String) (content : String)
  | UPDATE_APP (id : String) (updates : ArtifactUpdates)
  | DELETE_APP (id : String)
  | INIT_AI_CLIENT
  deriving Repr

/-- The reducer `appReducer` (AppContext.jsx lines 28–67), with the
`localStorage.setItem('bya-saved-apps', JSON.stringify(...))` side effects
of `ADD_APP`, `UPDATE_APP` and `DELETE_APP` modelled as writes to
`World.storage`. -/
def appReducer (w : World) (a : Action) : World :=
  match a with
  | .SET_SAVED_APPS payload =>
    { w with state := { w.state with savedApps := payload } }
  | .ADD_APP payload =>
    let newSavedApps := w.state.savedApps ++ [payload]
    { state := { w.state with savedApps := newSavedApps },
      storage := .wellFormed (Json.arr (newSavedApps.map encodeArtifact)) }
  | .SET_CURRENT_APP payload =>
    { w with state := { w.state with currentApp := payload } }
  | .SET_GENERATING payload =>
    { w with state := { w.state with isGenerating := payload } }
  | .SET_GENERATED_APP id content =>
    { w with state :=
      { w.state with generatedApps := mapSet w.state.generatedApps id content } }
  | .UPDATE_APP id updates =>
    let updatedApps := w.state.savedApps.map
      (fun app => if app.id == id then applyUpdates app updates else app)
    { state := { w.state with savedApps := updatedApps },
      storage := .wellFormed (Json.arr (updatedApps.map encodeArtifact)) }
  | .DELETE_APP id =>
    let filteredApps := w.state.savedApps.filter (fun app => app.id != id)
    { state := { w.state with savedApps := filteredApps },
      storage := .wellFormed (Json.arr (filteredApps.map encodeArtifact)) }
  | .INIT_AI_CLIENT =>
    { w with state := { w.state with aiClient := true } }

/-- The fallback metadata object built when `JSON.parse` of the metadata
response throws (AppContext.jsx lines 220–226). -/
def fallbackMetadata : Json :=
  Json.obj [("name", .str "Custom App"),
            ("description", .str "AI-generated application"),
            ("type", .str "other")]

/-- The enumerated app types of the metadata-extraction directive
(AppContext.jsx line 193: `"type": "todo|timer|calculator|tracker|notes|converter|other"`). -/
def appTypes : List String :=
  ["todo", "timer", "calculator", "tracker", "notes", "converter", "other"]

/-- `generateApp(prompt)` (AppContext.jsx lines 103–251).
Arguments beyond the starting `World` and the prompt supply the external
inputs of one run: `now` is `Date.now()`, `nowIso` is
`new Date().toISOString()`, `contentCall` is the outcome of the first
`responses.create` call (error message thrown, or `output_text`), and
`metadataCall` is the outcome of the second call composed with `JSON.parse`
of its `output_text` (`.ok none`: the text does not parse).  Returns the
resulting `World` and the settled value: the artifact returned, or the
message of the error thrown. -/
def generateApp (w : World) (prompt : String) (now : Nat) (nowIso : String)
    (contentCall : Except String String)
    (metadataCall : Except String (Option Json)) :
    World × Except String Artifact :=
  if w.state.aiClient = false then
    (w, .error "AI client not initialized. Please check your API key.")
  else
    let w1 := appReducer w (.SET_GENERATING true)
    match contentCall with
    | .error e =>
      (appReducer w1 (.SET_GENERATING false),
       .error ("Failed to generate app: " ++ e))
    | .ok generatedCode =>
      match metadataCall with
      | .error e =>
        (appReducer w1 (.SET_GENERATING false),
         .error ("Failed to generate app: " ++ e))
      | .ok metaParsed =>
        let metadata := metaParsed.getD fallbackMetadata
        let appId := toString now
        match propAccess metadata "name", propAccess metadata "description",
              propAccess metadata "type" with
        | .error e, _, _ | _, .error e, _ | _, _, .error e =>
          (appReducer w1 (.SET_GENERATING false),
           .error ("Failed to generate app: " ++ e))
        | .ok nm, .ok ds, .ok ty =>
          let appData : Artifact :=
            { id := appId, name := nm, description := ds, type := ty,
              createdAt := nowIso, prompt := prompt, code := generatedCode }
          let w2 := appReducer w1 (.SET_GENERATED_APP appId generatedCode)
          let w3 := appReducer w2 (.SET_CURRENT_APP (some appData))
          let w4 := appReducer w3 (.ADD_APP appData)
          (appReducer w4 (.SET_GENERATING false), .ok appData)

/-- The user-role content of the revision call (AppContext.jsx line 275);
`currentCode` is interpolated by a template literal, so an absent cache
entry (`Map.get` returning `undefined`) appears as the text `undefined`. -/
def followUpUserInput (currentCode followUpPrompt : String) : String :=
  "Here's the current app code:\n\n" ++ currentCode ++
  "\n\nPlease modify it to: " ++ followUpPrompt

/-- Outcome of one `updateAppWithFollowUp` run: the resulting `World`, the
settled value (`true` on success, or the thrown error's message), and the
user-role payloads of the `responses.create` calls issued to the client
during the run, in order. -/
structure ReviseResult where
  world : World
  result : Except String Bool
  issuedCalls : List String
  deriving Repr

/-- `updateAppWithFollowUp(appId, followUpPrompt)` (AppContext.jsx
lines 256–301).  `callResult` is the outcome of the single
`responses.create` call (thrown error message, or `output_text`).  Note the
source reads `state.generatedApps.get(appId)` without any existence check:
an absent entry yields `undefined`, which the template literal renders as
the string `"undefined"`. -/
def updateAppWithFollowUp (w : World) (appId followUpPrompt : String)
    (callResult : Except String String) : ReviseResult :=
  if w.state.aiClient = false then
    { world := w, result := .error "AI client not initialized.",
      issuedCalls := [] }
  else
    let w1 := appReducer w (.SET_GENERATING true)
    let currentCode := (mapGet w.state.generatedApps appId).getD "undefined"
    let userInput := followUpUserInput currentCode followUpPrompt
    match callResult with
    | .error e =>
      { world := appReducer w1 (.SET_GENERATING false),
        result := .error ("Failed to update app: " ++ e),
        issuedCalls := [userInput] }
    | .ok updatedCode =>
      let w2 := appReducer w1 (.SET_GENERATED_APP appId updatedCode)
      { world := appReducer w2 (.SET_GENERATING false),
        result := .ok true,
        issuedCalls := [userInput] }

/-- `saveCurrentApp()` (AppContext.jsx lines 306–310): dispatches `ADD_APP`
with the current artifact when one is set, otherwise does nothing. -/
def saveCurrentApp (w : World) : World :=
  match w.state.currentApp with
  | some app => appReducer w (.ADD_APP app)
  | none => w

/-- The `localStorage` contents written for a saved-apps list by the
`ADD_APP` / `UPDATE_APP` / `DELETE_APP` reducer cases:
`JSON.stringify` of the array of artifact objects. -/
def persistApps (l : List Artifact) : Stored :=
  .wellFormed (Json.arr (l.map encodeArtifact))

/-- Reading one loaded array element back as an artifact record, by the
property accesses the application performs on saved apps; `none` when a
field that is a string on every record this code writes fails to be one.
`name`, `description` and `type` are taken verbatim (possibly `undefined`
when the stored object lacks the key). -/
def decodeArtifact (j : Json) : Option Artifact :=
  match jsGet j "id", jsGet j "createdAt", jsGet j "prompt", jsGet j "code" with
  | .str id, .str createdAt, .str prompt, .str code =>
    some { id := id, name := jsGet j "name",
           description := jsGet j "description", type := jsGet j "type",
           createdAt := createdAt, prompt := prompt, code := code }
  | _, _, _, _ => none

/-- An artifact whose metadata-derived fields survive `JSON.stringify`
unchanged: each is either `undefined` (the field is dropped and reads back
as `undefined`) or a value containing no nested `undefined`.  Every
artifact the workflow constructs satisfies this: `name`, `description`,
`type` are either property reads on a `JSON.parse` result (which never
contains `undefined`) or the fallback strings. -/
def encodableArtifact (a : Artifact) : Prop :=
  (a.name = .undefined ∨ jsonify a.name = some a.name) ∧
  (a.description = .undefined ∨ jsonify a.description = some a.description) ∧
  (a.type = .undefined ∨ jsonify a.type = some a.type)

/-- Reading a whole loaded array back as artifact records, element-wise. -/
def decodeApps : List Json → Option (List Artifact)
  | [] => some []
  | j :: js =>
    match decodeArtifact j, decodeApps js with
    | some a, some t => some (a :: t)
    | _, _ => none

/-! Concrete fixtures used by counterexamples and witnesses. -/

/-- A world with the OpenAI client initialised and everything else at the
initial state: no saved apps, empty cache, nothing persisted. -/
def w0 : World := { state := { initialState with aiClient := true }, storage := .absent }

/-- A well-formed metadata response for a todo app. -/
def metaTodo : Json :=
  .obj [("name", .str "Todo"), ("description", .str "A todo app"), ("type", .str "todo")]

/-- The artifact `generateApp` builds from `metaTodo` at `Date.now() = 5`. -/
def aTodo : Artifact :=
  { id := "5", name := .str "Todo", description := .str "A todo app",
    type := .str "todo", createdAt := "T", prompt := "make a todo app",
    code := "<html>" }

/-- A metadata response that parses fine but whose `type` is outside the
directive's enumerated set. -/
def metaBanana : Json :=
  .obj [("name", .str "Fruit"), ("description", .str "A fruit app"),
        ("type", .str "banana")]

/-- The artifact `generateApp` builds from `metaBanana` at `Date.now() = 7`. -/
def aBanana : Artifact :=
  { id := "7", name := .str "Fruit", description := .str "A fruit app",
    type := .str "banana", createdAt := "T7", prompt := "fruit app",
    code := "<html>" }

/-- A previously generated and saved artifact whose code is `"oldcode"`. -/
def savedOld : Artifact :=
  { id := "1", name := .str "N", description := .str "D", type := .str "todo",
    createdAt := "T1", prompt := "p", code := "oldcode" }

/-- The in-memory state holding `savedOld` in the saved list and cache. -/
def s6 : AppState :=
  { initialState with
      aiClient := true, savedApps := [savedOld],
      generatedApps := [("1", "oldcode")] }

/-- A world holding `savedOld` in the saved list, the cache and storage. -/
def w6 : World :=
  { state := s6, storage := persistApps [savedOld] }

/-! Characterisation lemmas: one per control-flow path of the two
workflow operations. -/

/-- With no initialised client, `generateApp` throws before its `try`
block: the state (in particular `isGenerating`) is untouched. -/
theorem generateApp_client_null (w : World) (prompt : String) (now : Nat)
    (nowIso : String) (cc : Except String String)
    (mc : Except String (Option Json)) (h : w.state.aiClient = false) :
    generateApp w prompt now nowIso cc mc =
      (w, .error "AI client not initialized. Please check your API key.") := by
  simp [generateApp, h]

/-- A throwing content call: only the `SET_GENERATING` dispatches run. -/
theorem generateApp_content_error (w : World) (prompt : String) (now : Nat)
    (nowIso e : String) (mc : Except String (Option Json))
    (h : w.state.aiClient = true) :
    generateApp w prompt now nowIso (.error e) mc =
      ({ w with state := { w.state with isGenerating := false } },
       .error ("Failed to generate app: " ++ e)) := by
  simp [generateApp, h, appReducer]

/-- A throwing metadata call: only the `SET_GENERATING` dispatches run. -/
theorem generateApp_metadata_error (w : World) (prompt : String) (now : Nat)
    (nowIso c e : String) (h : w.state.aiClient = true) :
    generateApp w prompt now nowIso (.ok c) (.error e) =
      ({ w with state := { w.state with isGenerating := false } },
       .error ("Failed to generate app: " ++ e)) := by
  simp [generateApp, h, appReducer]

/-- Metadata text parsing to JSON `null`: the property read
`metadata.name` throws a `TypeError` inside the `try`. -/
theorem generateApp_metadata_null (w : World) (prompt : String) (now : Nat)
    (nowIso c : String) (h : w.state.aiClient = true) :
    generateApp w prompt now nowIso (.ok c) (.ok (some .null)) =
      ({ w with state := { w.state with isGenerating := false } },
       .error "Failed to generate app: Cannot read properties of null (reading name)") := by
  simp [generateApp, h, appReducer, propAccess]

/-- Degenerate case kept for exhaustiveness (a `JSON.parse` result is
never `undefined`, but the model's `Json` type has the value). -/
theorem generateApp_metadata_undefined (w : World) (prompt : String) (now : Nat)
    (nowIso c : String) (h : w.state.aiClient = true) :
    generateApp w prompt now nowIso (.ok c) (.ok (some .undefined)) =
      ({ w with state := { w.state with isGenerating := false } },
       .error "Failed to generate app: Cannot read properties of undefined (reading name)") := by
  simp [generateApp, h, appReducer, propAccess]

/-- The success path of `generateApp`: both calls return, the metadata
value (parsed, or the fallback) supports property reads, and the artifact
is cached, made current, appended and persisted. -/
theorem generateApp_ok (w : World) (prompt : String) (now : Nat)
    (nowIso c : String) (mo : Option Json) (h : w.state.aiClient = true)
    (hnull : mo.getD fallbackMetadata ≠ .null)
    (hund : mo.getD fallbackMetadata ≠ .undefined) :
    generateApp w prompt now nowIso (.ok c) (.ok mo) =
      (let metadata := mo.getD fallbackMetadata
       let appData : Artifact :=
         { id := toString now, name := jsGet metadata "name",
           description := jsGet metadata "description",
           type := jsGet metadata "type", createdAt := nowIso,
           prompt := prompt, code := c }
       ({ state :=
           { savedApps := w.state.savedApps ++ [appData],
             currentApp := some appData,
             isGenerating := false,
             generatedApps := mapSet w.state.generatedApps (toString now) c,
             aiClient := w.state.aiClient },
          storage := persistApps (w.state.savedApps ++ [appData]) },
        .ok appData)) := by
  have hprop : ∀ k, propAccess (mo.getD fallbackMetadata) k =
      .ok (jsGet (mo.getD fallbackMetadata) k) := by
    intro k
    cases hm : mo.getD fallbackMetadata <;> simp_all [propAccess]
  simp [generateApp, h, hprop, appReducer, persistApps]

/-- With no initialised client, `updateAppWithFollowUp` throws before its
`try` block and before any call is issued. -/
theorem updateApp_client_null (w : World) (appId fp : String)
    (rc : Except String String) (h : w.state.aiClient = false) :
    updateAppWithFollowUp w appId fp rc =
      { world := w, result := .error "AI client not initialized.",
        issuedCalls := [] } := by
  simp [updateAppWithFollowUp, h]

/-- A throwing revision call: the call was issued (with the cached code,
or the text `"undefined"` when the id has no cache entry), and only the
`SET_GENERATING` dispatches run. -/
theorem updateApp_call_error (w : World) (appId fp e : String)
    (h : w.state.aiClient = true) :
    updateAppWithFollowUp w appId fp (.error e) =
      { world := { w with state := { w.state with isGenerating := false } },
        result := .error ("Failed to update app: " ++ e),
        issuedCalls := [followUpUserInput
          ((mapGet w.state.generatedApps appId).getD "undefined") fp] } := by
  simp [updateAppWithFollowUp, h, appReducer]

/-- The success path of `updateAppWithFollowUp`: the cache entry for the
id is overwritten; nothing else changes. -/
theorem updateApp_ok (w : World) (appId fp nc : String)
    (h : w.state.aiClient = true) :
    updateAppWithFollowUp w appId fp (.ok nc) =
      { world :=
          { w with state :=
            { w.state with
              isGenerating := false,
              generatedApps := mapSet w.state.generatedApps appId nc } },
        result := .ok true,
        issuedCalls := [followUpUserInput
          ((mapGet w.state.generatedApps appId).getD "undefined") fp] } := by
  simp [updateAppWithFollowUp, h, appReducer]

/-- The generation-in-progress flag after `generateApp`: reset on every
path that enters the function body; untouched when the missing-client
guard throws first. -/
theorem generateApp_isGenerating (w : World) (prompt : String) (now : Nat)
    (nowIso : String) (cc : Except String String)
    (mc : Except String (Option Json)) :
    (generateApp w prompt now nowIso cc mc).1.state.isGenerating =
      (if w.state.aiClient = false then w.state.isGenerating else false) := by
  by_cases hc : w.state.aiClient = false
  · simp [generateApp, hc]
  · simp only [generateApp, hc, if_false]
    repeat' split
    all_goals rfl

/-- The generation-in-progress flag after `updateAppWithFollowUp`. -/
theorem updateApp_isGenerating (w : World) (appId fp : String)
    (rc : Except String String) :
    (updateAppWithFollowUp w appId fp rc).world.state.isGenerating =
      (if w.state.aiClient = false then w.state.isGenerating else false) := by
  by_cases hc : w.state.aiClient = false
  · simp [updateAppWithFollowUp, hc]
  · simp only [updateAppWithFollowUp, hc, if_false]
    repeat' split
    all_goals rfl

/-- `JSON.stringify` then element read-back is the identity on artifacts
whose metadata-derived fields survive stringification. -/
theorem decodeArtifact_encodeArtifact (a : Artifact) (h : encodableArtifact a) :
    decodeArtifact (encodeArtifact a) = some a := by
  obtain ⟨id, nm, ds, ty, ca, pr, co⟩ := a
  obtain ⟨h1, h2, h3⟩ := h
  rcases h1 with h1 | h1 <;> rcases h2 with h2 | h2 <;> rcases h3 with h3 | h3 <;>
    simp_all [encodeArtifact, decodeArtifact, jsonifyFields, jsonify, jsGet,
      List.find?]

/-! Claim C1. -/

/-- Claim C1, counterexample: the claim asserts that every artifact in the
Saved Artifact List has a unique id for every sequence of controller
operations, but uniqueness is not enforced on write: a successful
`generateApp` followed by `saveCurrentApp` appends the current artifact a
second time, leaving two entries with id `"5"`. -/
theorem saveCurrentApp_duplicate_id_cex :
    ((saveCurrentApp (generateApp w0 "make a todo app" 5 "T" (.ok "<html>")
        (.ok (some metaTodo))).1).state.savedApps.map Artifact.id = ["5", "5"]) ∧
    ¬ ((["5", "5"] : List String).Nodup) :=
  ⟨rfl, by decide⟩

/-- Claim C1, amended: a successful `generateApp` appends exactly one entry
to the Saved Artifact List, whose id is `Date.now().toString()`; provided
that string is not already an id in the list (the code itself performs no
check), the append preserves id-uniqueness of the list.  Uniqueness for
arbitrary controller-operation sequences does not hold (see the
counterexample). -/
theorem generateApp_appends_one_fresh (w : World) (prompt : String) (now : Nat)
    (nowIso c : String) (mo : Option Json) (a : Artifact)
    (hres : (generateApp w prompt now nowIso (.ok c) (.ok mo)).2 = .ok a)
    (hfresh : toString now ∉ w.state.savedApps.map Artifact.id) :
    (generateApp w prompt now nowIso (.ok c) (.ok mo)).1.state.savedApps
      = w.state.savedApps ++ [a] ∧
    a.id = toString now ∧
    ((w.state.savedApps.map Artifact.id).Nodup →
      (((generateApp w prompt now nowIso (.ok c) (.ok mo)).1.state.savedApps).map
        Artifact.id).Nodup) := by
  by_cases hc : w.state.aiClient = true
  case neg =>
    rw [Bool.not_eq_true] at hc
    rw [generateApp_client_null w prompt now nowIso _ _ hc] at hres
    cases hres
  case pos =>
    by_cases hnull : mo.getD fallbackMetadata = .null
    case pos =>
      have hmo : mo = some .null := by
        cases mo with
        | none => simp [fallbackMetadata] at hnull
        | some j => simp_all
      subst hmo
      rw [generateApp_metadata_null w prompt now nowIso c hc] at hres
      cases hres
    case neg =>
      by_cases hund : mo.getD fallbackMetadata = .undefined
      case pos =>
        have hmo : mo = some .undefined := by
          cases mo with
          | none => simp [fallbackMetadata] at hund
          | some j => simp_all
        subst hmo
        rw [generateApp_metadata_undefined w prompt now nowIso c hc] at hres
        cases hres
      case neg =>
        rw [generateApp_ok w prompt now nowIso c mo hc hnull hund] at hres ⊢
        simp only [Except.ok.injEq] at hres
        subst hres
        refine ⟨rfl, rfl, fun hnd => ?_⟩
        simp only [List.map_append, List.map_cons, List.map_nil]
        rw [List.nodup_append]
        refine ⟨hnd, List.nodup_singleton _, ?_⟩
        intro x hx hx2
        simp only [List.mem_singleton] at hx2
        subst hx2
        exact hfresh hx

/-- Claim C1, witness: the amended theorem applied to a concrete run from
the empty saved list. -/
theorem generateApp_appends_one_fresh_witness :
    (generateApp w0 "make a todo app" 5 "T" (.ok "<html>")
      (.ok (some metaTodo))).1.state.savedApps = w0.state.savedApps ++ [aTodo] :=
  (generateApp_appends_one_fresh w0 "make a todo app" 5 "T" "<html>"
    (some metaTodo) aTodo rfl (by simp [w0, initialState])).1

/-! Claim C2. -/

/-- Claim C2, counterexample: `revise` called with an id absent from cache
and store does not reject with `ArtifactNotFound`; the run succeeds and a
generation call is issued, with the literal text `undefined` interpolated
where the current code should be. -/
theorem revise_unknown_id_cex :
    (updateAppWithFollowUp w0 "42" "make it blue" (.ok "<new>")).result = .ok true ∧
    (updateAppWithFollowUp w0 "42" "make it blue" (.ok "<new>")).issuedCalls =
      [followUpUserInput "undefined" "make it blue"] ∧
    (updateAppWithFollowUp w0 "42" "make it blue" (.ok "<new>")).issuedCalls ≠ [] := by
  refine ⟨rfl, rfl, ?_⟩
  have hcalls : (updateAppWithFollowUp w0 "42" "make it blue" (.ok "<new>")).issuedCalls =
      [followUpUserInput "undefined" "make it blue"] := rfl
  rw [hcalls]
  simp

/-- Claim C2, amended: `updateAppWithFollowUp` performs no existence check
on the id.  For an id with no Content Cache entry (and whatever the saved
store holds), it still issues exactly one call to the Generation Client —
whose user input interpolates the string `"undefined"` for the missing
code — and, when that call returns text, the run succeeds. -/
theorem revise_unknown_id_issues_call (w : World) (appId fp nc : String)
    (hclient : w.state.aiClient = true)
    (hmiss : mapGet w.state.generatedApps appId = none) :
    (updateAppWithFollowUp w appId fp (.ok nc)).issuedCalls
      = [followUpUserInput "undefined" fp] ∧
    (updateAppWithFollowUp w appId fp (.ok nc)).result = .ok true := by
  rw [updateApp_ok w appId fp nc hclient]
  simp [hmiss]

/-- Claim C2, witness: the amended theorem applied to a concrete world with
an empty cache. -/
theorem revise_unknown_id_issues_call_witness :
    (updateAppWithFollowUp w0 "42" "make it blue" (.ok "<new2>")).issuedCalls
      = [followUpUserInput "undefined" "make it blue"] :=
  (revise_unknown_id_issues_call w0 "42" "make it blue" "<new2>" rfl rfl).1

/-! Claim C3. -/

/-- Claim C3: when the metadata response fails to parse as JSON, a
`generateApp` whose content call returned still succeeds, and the created
artifact carries the fixed fallback `name = "Custom App"`,
`description = "AI-generated application"`, `type = "other"`. -/
theorem generateApp_metadata_fallback (w : World) (prompt : String) (now : Nat)
    (nowIso c : String) (h : w.state.aiClient = true) :
    (generateApp w prompt now nowIso (.ok c) (.ok none)).2 =
      .ok { id := toString now, name := .str "Custom App",
            description := .str "AI-generated application",
            type := .str "other", createdAt := nowIso, prompt := prompt,
            code := c } := by
  rw [generateApp_ok w prompt now nowIso c none h (by simp [fallbackMetadata])
    (by simp [fallbackMetadata])]
  rfl

/-- Claim C3, witness: the theorem applied to a concrete run. -/
theorem generateApp_metadata_fallback_witness :
    (generateApp w0 "make a todo app" 5 "T" (.ok "<html>") (.ok none)).2 =
      .ok { id := toString 5, name := .str "Custom App",
            description := .str "AI-generated application",
            type := .str "other", createdAt := "T",
            prompt := "make a todo app", code := "<html>" } :=
  generateApp_metadata_fallback w0 "make a todo app" 5 "T" "<html>" rfl

/-! Claim C4. -/

/-- Claim C4: after any `generateApp` or `updateAppWithFollowUp` call
settles — success or failure — the generation-in-progress flag is false.
The hypothesis covers the one path that does not touch the flag (the
missing-client guard throws before the `try`): there the flag keeps its
prior value, which is false in any quiescent state. -/
theorem generating_false_after_settle (w : World) (prompt : String) (now : Nat)
    (nowIso : String) (cc rc : Except String String)
    (mc : Except String (Option Json)) (appId fp : String)
    (h : w.state.aiClient = true ∨ w.state.isGenerating = false) :
    (generateApp w prompt now nowIso cc mc).1.state.isGenerating = false ∧
    (updateAppWithFollowUp w appId fp rc).world.state.isGenerating = false := by
  rw [generateApp_isGenerating, updateApp_isGenerating]
  rcases h with h | h <;> simp [h]

/-- Claim C4, witness: the theorem applied to a concrete failing run of
each operation. -/
theorem generating_false_after_settle_witness :
    (generateApp w0 "p" 5 "T" (.error "boom") (.ok none)).1.state.isGenerating = false ∧
    (updateAppWithFollowUp w0 "1" "q" (.error "boom")).world.state.isGenerating = false :=
  generating_false_after_settle w0 "p" 5 "T" (.error "boom") (.error "boom")
    (.ok none) "1" "q" (Or.inl rfl)

/-! Claim C5. -/

/-- Claim C5: whenever `generateApp` fails, the Saved Artifact List, the
current-artifact reference and the persisted storage are exactly what they
were before the call — no partial artifact is added — and a transport
error thrown by the content call (with the client available) propagates to
the caller wrapped as the generation-failure message. -/
theorem generateApp_failure_frame (w : World) (prompt : String) (now : Nat)
    (nowIso : String) (cc : Except String String)
    (mc : Except String (Option Json)) (e : String)
    (h : (generateApp w prompt now nowIso cc mc).2 = .error e) :
    (generateApp w prompt now nowIso cc mc).1.state.savedApps = w.state.savedApps ∧
    (generateApp w prompt now nowIso cc mc).1.state.currentApp = w.state.currentApp ∧
    (generateApp w prompt now nowIso cc mc).1.storage = w.storage ∧
    ∀ m, w.state.aiClient = true → cc = .error m →
      e = "Failed to generate app: " ++ m := by
  by_cases hc : w.state.aiClient = true
  case neg =>
    rw [Bool.not_eq_true] at hc
    rw [generateApp_client_null w prompt now nowIso cc mc hc] at h ⊢
    exact ⟨rfl, rfl, rfl, fun m hcl _ => by rw [hcl] at hc; cases hc⟩
  case pos =>
    rcases cc with e0 | c
    · rw [generateApp_content_error w prompt now nowIso e0 mc hc] at h ⊢
      refine ⟨rfl, rfl, rfl, fun m _ hccm => ?_⟩
      cases hccm
      injection h with h1
      exact h1.symm
    · have hnoerr : ∀ m, (Except.ok c : Except String String) = .error m →
          e = "Failed to generate app: " ++ m := by
        intro m hccm
        cases hccm
      rcases mc with e0 | mo
      · rw [generateApp_metadata_error w prompt now nowIso c e0 hc] at h ⊢
        exact ⟨rfl, rfl, rfl, fun m _ => hnoerr m⟩
      · by_cases hnull : mo.getD fallbackMetadata = .null
        case pos =>
          have hmo : mo = some .null := by
            cases mo with
            | none => simp [fallbackMetadata] at hnull
            | some j => simp_all
          subst hmo
          rw [generateApp_metadata_null w prompt now nowIso c hc] at h ⊢
          exact ⟨rfl, rfl, rfl, fun m _ => hnoerr m⟩
        case neg =>
          by_cases hund : mo.getD fallbackMetadata = .undefined
          case pos =>
            have hmo : mo = some .undefined := by
              cases mo with
              | none => simp [fallbackMetadata] at hund
              | some j => simp_all
            subst hmo
            rw [generateApp_metadata_undefined w prompt now nowIso c hc] at h ⊢
            exact ⟨rfl, rfl, rfl, fun m _ => hnoerr m⟩
          case neg =>
            rw [generateApp_ok w prompt now nowIso c mo hc hnull hund] at h
            cases h

/-- Claim C5, witness: the theorem applied to a concrete transport-error
run. -/
theorem generateApp_failure_frame_witness :
    (generateApp w0 "p" 5 "T" (.error "boom") (.ok none)).1.state.savedApps
      = w0.state.savedApps ∧
    "Failed to generate app: boom" = "Failed to generate app: " ++ "boom" :=
  ⟨(generateApp_failure_frame w0 "p" 5 "T" (.error "boom") (.ok none)
      "Failed to generate app: boom" rfl).1,
   (generateApp_failure_frame w0 "p" 5 "T" (.error "boom") (.ok none)
      "Failed to generate app: boom" rfl).2.2.2 "boom" rfl rfl⟩

/-! Claim C6. -/

/-- Claim C6, counterexample: the claim asserts a successful revision also
replaces the `code` field materialised on the saved record, but the code
dispatches only `SET_GENERATED_APP`: after a successful revision of the
saved artifact with id `"1"`, the Content Cache holds the new text while
the saved record still carries `"oldcode"`. -/
theorem revise_saved_code_stale_cex :
    (updateAppWithFollowUp w6 "1" "make it blue" (.ok "newcode")).result = .ok true ∧
    mapGet (updateAppWithFollowUp w6 "1" "make it blue"
      (.ok "newcode")).world.state.generatedApps "1" = some "newcode" ∧
    (updateAppWithFollowUp w6 "1" "make it blue"
      (.ok "newcode")).world.state.savedApps.map Artifact.code = ["oldcode"] ∧
    ("oldcode" : String) ≠ "newcode" :=
  ⟨rfl, rfl, rfl, by decide⟩

/-- Claim C6, amended: a successful `updateAppWithFollowUp` leaves the
Saved Artifact List (hence every field of the target's saved record,
including its stale `code` field), the current-artifact reference and the
persisted storage unchanged; only the Content Cache entry for the id is
replaced, in full, by the new text. -/
theorem revise_success_frame (w : World) (appId fp nc : String)
    (h : w.state.aiClient = true) :
    (updateAppWithFollowUp w appId fp (.ok nc)).result = .ok true ∧
    (updateAppWithFollowUp w appId fp (.ok nc)).world.state.savedApps
      = w.state.savedApps ∧
    (updateAppWithFollowUp w appId fp (.ok nc)).world.state.currentApp
      = w.state.currentApp ∧
    (updateAppWithFollowUp w appId fp (.ok nc)).world.storage = w.storage ∧
    (updateAppWithFollowUp w appId fp (.ok nc)).world.state.generatedApps
      = mapSet w.state.generatedApps appId nc := by
  rw [updateApp_ok w appId fp nc h]
  exact ⟨rfl, rfl, rfl, rfl, rfl⟩

/-- Claim C6, witness: the amended theorem applied to the concrete world
holding one saved artifact. -/
theorem revise_success_frame_witness :
    (updateAppWithFollowUp w6 "1" "b" (.ok "nc")).world.state.savedApps
      = w6.state.savedApps :=
  (revise_success_frame w6 "1" "b" "nc" rfl).2.1

/-! Claim C7. -/

/-- Claim C7, counterexample: the claim asserts the load never raises and
degrades to empty on malformed stored data, but the load expression has no
try/catch: on a stored string that is not valid JSON, `JSON.parse` throws
and the error propagates. -/
theorem load_malformed_raises_cex :
    loadSavedApps .malformed = .error "Unexpected token in JSON" := rfl

/-- Claim C7, amended: the load yields the empty list when no prior data
exists (and when the stored JSON value is falsy); a well-formed stored
value is returned as-is, without validation; on malformed stored data
`JSON.parse` throws and the error propagates to the caller. -/
theorem loadSavedApps_cases :
    loadSavedApps .absent = .ok (Json.arr []) ∧
    (∀ j, truthy j = true → loadSavedApps (.wellFormed j) = .ok j) ∧
    (∀ j, truthy j = false → loadSavedApps (.wellFormed j) = .ok (Json.arr [])) ∧
    ∃ e, loadSavedApps .malformed = .error e := by
  refine ⟨rfl, ?_, ?_, ⟨_, rfl⟩⟩ <;> intro j h <;> simp [loadSavedApps, h]

/-- Claim C7, witness: the amended theorem instantiated at a concrete
well-formed stored array. -/
theorem loadSavedApps_cases_witness :
    loadSavedApps (.wellFormed (Json.arr [Json.num 1])) =
      .ok (Json.arr [Json.num 1]) :=
  loadSavedApps_cases.2.1 (Json.arr [Json.num 1]) rfl

/-! Claim C8. -/

/-- Claim C8, counterexample: the claim asserts an unrecognised `type` in a
successfully parsed metadata response falls back to `"other"`, but the code
uses `metadata.type` verbatim: a parsed response with type `"banana"`
(outside the directive's enumerated set) yields an artifact whose type is
`"banana"`, not `"other"`. -/
theorem unrecognized_type_kept_cex :
    (generateApp w0 "fruit app" 7 "T7" (.ok "<html>") (.ok (some metaBanana))).2 =
      .ok aBanana ∧
    "banana" ∉ appTypes ∧ aBanana.type ≠ Json.str "other" := by
  refine ⟨rfl, by decide, ?_⟩
  intro hEq
  have h2 : ("banana" : String) = "other" := by injection hEq
  exact absurd h2 (by decide)

/-- Claim C8, amended: for a successfully parsed metadata response the
created artifact's `name`, `description` and `type` are the property reads
of the parsed value, verbatim — no membership check against the enumerated
set is performed; the `"other"` fallback arises only when the whole
response fails to parse. -/
theorem generateApp_type_verbatim (w : World) (prompt : String) (now : Nat)
    (nowIso c : String) (j : Json) (h : w.state.aiClient = true)
    (hnull : j ≠ .null) (hund : j ≠ .undefined) :
    (generateApp w prompt now nowIso (.ok c) (.ok (some j))).2 =
      .ok { id := toString now, name := jsGet j "name",
            description := jsGet j "description", type := jsGet j "type",
            createdAt := nowIso, prompt := prompt, code := c } := by
  rw [generateApp_ok w prompt now nowIso c (some j) h (by simpa using hnull)
    (by simpa using hund)]
  rfl

/-- Claim C8, witness: the amended theorem applied to the concrete
out-of-enumeration metadata response. -/
theorem generateApp_type_verbatim_witness :
    (generateApp w0 "fruit app" 7 "T7" (.ok "<html>") (.ok (some metaBanana))).2 =
      .ok { id := toString 7, name := jsGet metaBanana "name",
            description := jsGet metaBanana "description",
            type := jsGet metaBanana "type", createdAt := "T7",
            prompt := "fruit app", code := "<html>" } :=
  generateApp_type_verbatim w0 "fruit app" 7 "T7" "<html>" metaBanana rfl
    (by simp [metaBanana]) (by simp [metaBanana])

/-! Claim C9. -/

/-- Claim C9: persisting a Saved Artifact List (the `JSON.stringify` write
the reducer performs) and loading it back yields the same list,
field-for-field, for any list — empty, one or many — of artifacts whose
metadata-derived fields survive stringification (every artifact the
workflow constructs does). -/
theorem persist_load_roundtrip (l : List Artifact)
    (h : ∀ a ∈ l, encodableArtifact a) :
    loadSavedApps (persistApps l) = .ok (Json.arr (l.map encodeArtifact)) ∧
    decodeApps (l.map encodeArtifact) = some l := by
  constructor
  · simp [persistApps, loadSavedApps, truthy]
  · induction l with
    | nil => rfl
    | cons a t ih =>
      have ha : encodableArtifact a := h a (by simp)
      have ht : decodeApps (t.map encodeArtifact) = some t :=
        ih (fun x hx => h x (by simp [hx]))
      simp [decodeApps, decodeArtifact_encodeArtifact a ha, ht]

/-- Claim C9, witness: the theorem applied to a concrete two-artifact
list. -/
theorem persist_load_roundtrip_witness :
    decodeApps ([aTodo, savedOld].map encodeArtifact) = some [aTodo, savedOld] :=
  (persist_load_roundtrip [aTodo, savedOld] (by
    intro a ha
    simp only [List.mem_cons, List.mem_singleton] at ha
    rcases ha with rfl | rfl | h
    · exact ⟨Or.inr rfl, Or.inr rfl, Or.inr rfl⟩
    · exact ⟨Or.inr rfl, Or.inr rfl, Or.inr rfl⟩
    · cases h)).2

/-! Claim C10. -/

/-- Claim C10: calling `saveCurrentApp` with no current artifact set leaves
the whole world — in-memory state and persisted storage — unchanged. -/
theorem saveCurrentApp_no_current_noop (w : World)
    (h : w.state.currentApp = none) : saveCurrentApp w = w := by
  simp [saveCurrentApp, h]

/-- Claim C10, witness: the theorem applied to the initial world. -/
theorem saveCurrentApp_no_current_noop_witness :
    saveCurrentApp { state := initialState, storage := .absent } =
      { state := initialState, storage := .absent } :=
  saveCurrentApp_no_current_noop { state := initialState, storage := .absent } rfl

end Bya
